import Mathlib

/-!
Verification development for the ScoutAlina route-enrichment pipeline.

The definitions below are a shallow embedding of the Python sources
`scoutalina/server/services/enrichment.py`, `scoutalina/server/models.py`
and `server/config.py`:

* provider records are JSON-like values (`JVal`) and the ATTOM
  normalisation `parse_attom_property` is translated statement by
  statement, with Python truthiness (`pyOr`), `dict.get` (`pyGet`),
  `str(...)` (`pyStr`) and `float(...)` (`pyFloat`) modelled explicitly;
  a Python exception escaping the function is `Except.error ()`;
* the database session is an explicit `DB` state (routes, properties,
  associations) threaded through `upsert_and_associate` and
  `enrich_route`; an uncommitted session discarded by an exception is
  modelled by returning `Except.error ()` without a state;
* PostGIS `ST_Distance(geometry, geometry)` on SRID 4326 data is planar
  Euclidean distance in coordinate degrees; to stay inside `ℚ` every
  distance is represented by its square, and the source comparison
  `d > buf` on nonnegative values is embedded as `d² > buf²`.
-/

/-- JSON-like values as delivered by the provider API (`resp.json()`).
Booleans do not occur in the fields the code reads and are omitted. -/
inductive JVal where
  | null
  | num (q : ℚ)
  | str (s : String)
  | arr (xs : List JVal)
  | obj (fields : List (String × JVal))
  deriving Repr, BEq

deriving instance DecidableEq for Except

/-- Python truthiness of a JSON value: `None`, `0`, `""`, `[]`, `{ }` are falsy. -/
def truthy : JVal → Bool
  | .null => false
  | .num q => q != 0
  | .str s => !s.isEmpty
  | .arr xs => !xs.isEmpty
  | .obj fs => !fs.isEmpty

/-- Python `x or d`. -/
def pyOr (v d : JVal) : JVal :=
  if truthy v then v else d

/-- Python `x.get(k)` on a value expected to be a dict: returns `None` for a
missing key and raises (`AttributeError`, modelled as `Except.error`) when the
receiver is not a dict. -/
def pyGet : JVal → String → Except Unit JVal
  | .obj fs, k => .ok ((fs.lookup k).getD .null)
  | _, _ => .error ()

/-- Python `str(...)` of a JSON value. Only string arguments occur in the
claims; numeric and container reprs are approximated. -/
def pyStr : JVal → String
  | .null => "None"
  | .str s => s
  | .num q => toString q
  | .arr _ => "[...]"
  | .obj _ => "\x7b...\x7d"

/-- Decimal literal accepted by Python `float(...)`: optional sign, digits,
optional fraction. Exotic forms (exponents, `inf`, leading dot, whitespace)
are not modelled; they do not occur in the claims. -/
def parseFloatStr (s : String) : Option ℚ :=
  let signBody :=
    if s.startsWith "-" then ((-1 : ℚ), s.drop 1)
    else if s.startsWith "+" then ((1 : ℚ), s.drop 1)
    else ((1 : ℚ), s)
  match signBody.2.splitOn "." with
  | [intPart] => (intPart.toNat?).map (fun n => signBody.1 * n)
  | [intPart, fracPart] =>
    match intPart.toNat?, fracPart.toNat? with
    | some i, some f =>
      some (signBody.1 * ((i : ℚ) + (f : ℚ) / (10 : ℚ) ^ fracPart.length))
    | _, _ => none
  | _ => none

/-- Python `float(...)`: numbers pass through, numeric strings are parsed,
anything else (including `None`, dicts, lists) raises. -/
def pyFloat : JVal → Except Unit ℚ
  | .num q => .ok q
  | .str s =>
    match parseFloatStr s with
    | some q => .ok q
    | none => .error ()
  | _ => .error ()

/-- `float(v or 0) or None` (enrichment.py lines 93-94): a coordinate equal to
`0` after conversion becomes `None`. -/
def normCoord (v : JVal) : Except Unit (Option ℚ) := do
  let f ← pyFloat (pyOr v (.num 0))
  pure (if f = 0 then none else some f)

/-- String column content: non-string JSON values assigned to string columns
do not occur in the claims and are treated as absent. -/
def asStrOpt : JVal → Option String
  | .str s => some s
  | _ => none

/-- Numeric column content: non-numeric JSON values assigned to numeric
columns do not occur in the claims and are treated as absent. -/
def asNumOpt : JVal → Option ℚ
  | .num q => some q
  | _ => none

/-- `datetime.strptime(s, "%Y-%m-%d")` success, approximated: three dash
separated numeric fields with a plausible month and day. The surrounding
`try/except` makes any failure yield `None`. -/
def parseYmd (s : String) : Option String :=
  match s.splitOn "-" with
  | [y, m, d] =>
    match y.toNat?, m.toNat?, d.toNat? with
    | some _, some mv, some dv =>
      if 1 ≤ mv && mv ≤ 12 && 1 ≤ dv && dv ≤ 31 then some s else none
    | _, _, _ => none
  | _ => none

/-- The guarded `strptime` call of lines 96-101: non-strings raise inside the
`try` block and are caught, yielding `None`. -/
def tryParseDate : JVal → Option String
  | .str s => parseYmd s
  | _ => none

/-- The dict returned by `parse_attom_property` (enrichment.py lines 103-122),
one field per key. `last_updated` is the `datetime.utcnow()` call at dict
construction, threaded as an integer timestamp in seconds. -/
structure Props where
  external_id : Option String
  address : Option String
  city : Option String
  state : Option String
  zip : Option String
  latitude : Option ℚ
  longitude : Option ℚ
  price : Option ℚ
  bedrooms : Option ℚ
  bathrooms : Option ℚ
  sqft : Option ℚ
  lot_sqft : Option ℚ
  year_built : Option ℚ
  property_type : Option String
  listing_date : Option String
  photo_url : Option String
  source : Option String
  last_updated : ℤ
  deriving Repr, DecidableEq

/-- `parse_attom_property` (enrichment.py lines 80-122). Each `← pyGet ...`
is a `.get` call that raises when its receiver is a truthy non-dict; the
`or {}` fallbacks are the `pyOr ... (.obj [])` applications. The pure local
dict abbreviations of the source are inlined at their use sites. -/
def parse_attom_property (now : ℤ) (data : JVal) : Except Unit Props := do
  let identifierV ← pyGet data "identifier"
  let addressV ← pyGet data "address"
  let locationV ← pyGet data "location"
  let saleV ← pyGet data "sale"
  let amountV ← pyGet (pyOr saleV (.obj [])) "amount"
  let buildingV ← pyGet data "building"
  let roomsV ← pyGet (pyOr buildingV (.obj [])) "rooms"
  let sizeV ← pyGet (pyOr buildingV (.obj [])) "size"
  let vintageV ← pyGet data "vintage"
  let attomIdV ← pyGet (pyOr identifierV (.obj [])) "attomId"
  let latV ← pyGet (pyOr locationV (.obj [])) "latitude"
  let lat ← normCoord latV
  let lonV ← pyGet (pyOr locationV (.obj [])) "longitude"
  let lon ← normCoord lonV
  let saleDateV ← pyGet (pyOr saleV (.obj [])) "saleTransDate"
  let priceV ← pyGet (pyOr amountV (.obj [])) "saleamt"
  let bedsV ← pyGet (pyOr roomsV (.obj [])) "beds"
  let bathsV ← pyGet (pyOr roomsV (.obj [])) "bathstotal"
  let sqftV ← pyGet (pyOr sizeV (.obj [])) "livingsize"
  let line1V ← pyGet (pyOr addressV (.obj [])) "line1"
  let cityV ← pyGet (pyOr addressV (.obj [])) "locality"
  let stateV ← pyGet (pyOr addressV (.obj [])) "countrySubd"
  let zipV ← pyGet (pyOr addressV (.obj [])) "postal1"
  let yearV ←
    if truthy (pyOr vintageV (.obj [])) then
      pyGet (pyOr vintageV (.obj [])) "yearbuilt"
    else pure JVal.null
  pure {
    external_id :=
      if pyStr (pyOr attomIdV (.str "")) = "" then none
      else some (pyStr (pyOr attomIdV (.str "")))
    address := asStrOpt line1V
    city := asStrOpt cityV
    state := asStrOpt stateV
    zip := asStrOpt zipV
    latitude := lat
    longitude := lon
    price := asNumOpt priceV
    bedrooms := asNumOpt bedsV
    bathrooms := asNumOpt bathsV
    sqft := asNumOpt sqftV
    lot_sqft := none
    year_built := asNumOpt yearV
    property_type := some "SFR"
    listing_date := if truthy saleDateV then tryParseDate saleDateV else none
    photo_url := none
    source := some "ATTOM"
    last_updated := now }

example : (parse_attom_property 5 (.obj [("identifier", .obj [("attomId", .str "A1")]),
    ("location", .obj [("latitude", .num 2), ("longitude", .num 3)])])).map
    (fun p => (p.external_id, p.latitude, p.longitude, p.last_updated))
    = .ok (some "A1", some 2, some 3, 5) := by decide

/-! ## Database state (models.py) -/

/-- A row of the `properties` table (models.py lines 178-202), restricted to
the columns written by the enrichment pipeline. `last_updated` is a timestamp
in seconds. -/
structure PropertyRec where
  id : ℕ
  external_id : Option String
  address : Option String
  city : Option String
  state : Option String
  zip : Option String
  latitude : Option ℚ
  longitude : Option ℚ
  price : Option ℚ
  bedrooms : Option ℚ
  bathrooms : Option ℚ
  sqft : Option ℚ
  lot_sqft : Option ℚ
  year_built : Option ℚ
  property_type : Option String
  listing_date : Option String
  photo_url : Option String
  source : Option String
  last_updated : ℤ
  deriving Repr, DecidableEq

/-- A row of the `route_properties` association table (models.py lines
250-265): composite key, distance (stored as its square, see the module
comment) and the first-discovery timestamp. -/
structure Assoc where
  route_id : ℕ
  property_id : ℕ
  distance_meters : ℚ
  discovered_at : ℤ
  deriving Repr, DecidableEq

/-- A row of the `routes` table: the enrichment pipeline reads only the id and
the LineString geography, a list of (lon, lat) vertices, `none` when the
`geom` column is NULL. -/
structure RouteRec where
  id : ℕ
  geom : Option (List (ℚ × ℚ))
  deriving Repr, DecidableEq

/-- The database session state threaded through the pipeline. `nextPropId` is
the autoincrement counter consulted by `db.session.flush()`. -/
structure DB where
  routes : List RouteRec
  properties : List PropertyRec
  assocs : List Assoc
  nextPropId : ℕ
  deriving Repr, DecidableEq

/-- `Property(**props)` with a freshly flushed autoincrement id: the dict has
no `id` key, every other column comes from the parsed dict. -/
def propertyOfProps (id : ℕ) (props : Props) : PropertyRec :=
  { id := id
    external_id := props.external_id
    address := props.address
    city := props.city
    state := props.state
    zip := props.zip
    latitude := props.latitude
    longitude := props.longitude
    price := props.price
    bedrooms := props.bedrooms
    bathrooms := props.bathrooms
    sqft := props.sqft
    lot_sqft := props.lot_sqft
    year_built := props.year_built
    property_type := props.property_type
    listing_date := props.listing_date
    photo_url := props.photo_url
    source := props.source
    last_updated := props.last_updated }

/-- The stale-refresh loop `for k, v in props.items(): setattr(existing, k, v)`
(enrichment.py lines 167-168): every key of the dict is overwritten, the `id`
column is not in the dict and survives. -/
def overwriteFrom (p : PropertyRec) (props : Props) : PropertyRec :=
  propertyOfProps p.id props

/-- In-place mutation of the first `properties` row matching the external id,
as performed on the object returned by `.filter_by(...).first()`. -/
def overwriteFirstProp (props : Props) : List PropertyRec → List PropertyRec
  | [] => []
  | p :: rest =>
    if p.external_id == props.external_id then overwriteFrom p props :: rest
    else p :: overwriteFirstProp props rest

/-- `timedelta(hours=24)` of enrichment.py line 166, in seconds. The value
coincides with `Config.PROPERTY_CACHE_HOURS = 24` (server/config.py line 17);
the enrichment code spells the 24 hours directly. -/
def propertyCacheSeconds : ℤ := 24 * 3600

/-- Lines 164-173: look up the cached property by external id; if present and
stale (`last_updated <= now - 24h`) overwrite every provider-sourced field,
if present and fresh leave the row untouched; if absent insert a new row and
flush to obtain its id. Returns the updated session and the property id. -/
def upsertProperty (now : ℤ) (props : Props) (db : DB) : DB × ℕ :=
  match db.properties.find? (fun p => p.external_id == props.external_id) with
  | some p =>
    (if p.last_updated ≤ now - propertyCacheSeconds then
      { db with properties := overwriteFirstProp props db.properties }
    else db, p.id)
  | none =>
    ({ db with
        properties := db.properties ++ [propertyOfProps db.nextPropId props]
        nextPropId := db.nextPropId + 1 },
      db.nextPropId)

/-! ## Planar geometry of the distance SQL (enrichment.py lines 176-184)

`ST_Distance(r.geom::geometry, ST_SetSRID(ST_MakePoint(lon, lat), 4326)
::geometry)` is the planar Euclidean distance between the point and the
LineString in coordinate units, i.e. degrees: the `::geometry` casts strip the
geodesic interpretation. Distances are represented by their squares. -/

/-- Squared planar distance between two (lon, lat) pairs. -/
def ptDistSq (p q : ℚ × ℚ) : ℚ :=
  (p.1 - q.1) ^ 2 + (p.2 - q.2) ^ 2

/-- Squared planar distance from a point to a segment. -/
def segDistSq (p a b2 : ℚ × ℚ) : ℚ :=
  let dx := b2.1 - a.1
  let dy := b2.2 - a.2
  let len2 := dx ^ 2 + dy ^ 2
  if len2 = 0 then ptDistSq p a
  else
    let t := ((p.1 - a.1) * dx + (p.2 - a.2) * dy) / len2
    let tc := max 0 (min 1 t)
    ptDistSq p (a.1 + tc * dx, a.2 + tc * dy)

/-- Squared planar distance from a point to a LineString (minimum over its
segments); `none` for an empty vertex list (NULL distance). -/
def lineDistSq (p : ℚ × ℚ) : List (ℚ × ℚ) → Option ℚ
  | [] => none
  | [a] => some (ptDistSq p a)
  | a :: b2 :: rest =>
    match lineDistSq p (b2 :: rest) with
    | none => some (segDistSq p a b2)
    | some d => some (min (segDistSq p a b2) d)

/-- The value `float(dist_row["d"] or 0.0)` of line 188: a NULL distance
(NULL geometry or NULL point coordinate) collapses to `0.0`. -/
def distSqOf (geom : Option (List (ℚ × ℚ))) (lon lat : Option ℚ) : ℚ :=
  (do
    let g ← geom
    let lo ← lon
    let la ← lat
    lineDistSq (lo, la) g).getD 0

/-! ## Association upsert (enrichment.py lines 192-198) -/

/-- Composite key of a `route_properties` row. -/
def assocKey (a : Assoc) : ℕ × ℕ :=
  (a.route_id, a.property_id)

/-- The table invariant: at most one association per (route, property). -/
def keysNodup (l : List Assoc) : Prop :=
  (l.map assocKey).Nodup

instance keysNodupDecidable (l : List Assoc) : Decidable (keysNodup l) :=
  inferInstanceAs (Decidable (l.map assocKey).Nodup)

/-- Mutation `assoc.distance_meters = dist_m` on the object returned by
`.filter_by(...).first()`: only the first matching row is touched and only its
distance column changes. -/
def setDistanceFirst (rid pid : ℕ) (d : ℚ) : List Assoc → List Assoc
  | [] => []
  | a :: rest =>
    if a.route_id == rid && a.property_id == pid then
      { a with distance_meters := d } :: rest
    else a :: setDistanceFirst rid pid d rest

/-- Lines 192-198: query the association by its composite key; insert a new
row with `discovered_at := now` when absent, otherwise overwrite only
`distance_meters`. -/
def upsertAssoc (now : ℤ) (rid pid : ℕ) (d : ℚ) (assocs : List Assoc) : List Assoc :=
  match assocs.find? (fun a => a.route_id == rid && a.property_id == pid) with
  | none => assocs ++ [{ route_id := rid, property_id := pid, distance_meters := d, discovered_at := now }]
  | some _ => setDistanceFirst rid pid d assocs

/-- Python truthiness of the optional external id (`if not ext_id: continue`,
line 161). -/
def truthyOptStr : Option String → Bool
  | none => false
  | some s => !s.isEmpty

/-- The loop body of `_upsert_and_associate` (enrichment.py lines 156-199):
parse each record (an escaping exception aborts the whole batch and discards
the uncommitted session), skip records without external id, upsert the
property, recompute the planar distance against the route row, skip candidates
beyond the buffer (degree² against meters²) and upsert the association. -/
def upsertAux (now : ℤ) (rid : ℕ) (buf : ℚ) :
    List JVal → DB → ℕ → Except Unit (DB × ℕ)
  | [], db, count => .ok (db, count)
  | rec :: rest, db, count =>
    match parse_attom_property now rec with
    | .error e => .error e
    | .ok props =>
      if truthyOptStr props.external_id then
        let r := upsertProperty now props db
        match r.1.routes.find? (fun rt => rt.id == rid) with
        | none => upsertAux now rid buf rest r.1 count
        | some route =>
          let dSq := distSqOf route.geom props.longitude props.latitude
          if dSq > buf ^ 2 then upsertAux now rid buf rest r.1 count
          else
            upsertAux now rid buf rest
              { r.1 with assocs := upsertAssoc now rid r.2 dSq r.1.assocs }
              (count + 1)
      else upsertAux now rid buf rest db count

/-- `_upsert_and_associate(route_id, attom_props, buffer_meters)`; the final
`db.session.commit()` is the returned state. -/
def upsert_and_associate (now : ℤ) (route_id : ℕ) (attom_props : List JVal)
    (buffer_meters : ℚ) (db : DB) : Except Unit (DB × ℕ) :=
  upsertAux now route_id buffer_meters attom_props db 0

/-! ## Provider client and orchestrator -/

/-- Outcome of the single `requests.get` call of `_query_attom_bbox`: a
timeout, another connection-level `RequestException`, or an HTTP response
whose JSON body is an object. -/
inductive HttpResult where
  | timeout
  | connError
  | response (status : ℕ) (body : List (String × JVal))
  deriving Repr

/-- `resp.raise_for_status()` raises `requests.HTTPError` exactly for 4xx and
5xx status codes; the surrounding `except requests.RequestException` catches
it. -/
def raiseForStatusFails (s : ℕ) : Bool :=
  400 ≤ s && s < 600

/-- The list under the "property" key, `data.get("property") or []` (line
151). A truthy non-list value would only fail later at iteration and does not
occur in the claims. -/
def propertyList (body : List (String × JVal)) : List JVal :=
  match pyOr ((body.lookup "property").getD .null) (.arr []) with
  | .arr xs => xs
  | _ => []

/-- `_query_attom_bbox` (enrichment.py lines 130-153): `None` without an API
key; `None` on timeout or any other `RequestException`; `None` on HTTP 429;
`None` on any status that makes `raise_for_status` raise (in particular 5xx);
otherwise the normalized candidate list. The bounding box only parameterizes
the request and the response is the `http` oracle. -/
def query_attom_bbox (apiKey : Option String) (http : HttpResult)
    (_bbox : ℚ × ℚ × ℚ × ℚ) : Option (List JVal) :=
  match apiKey with
  | none => none
  | some _ =>
    match http with
    | .timeout => none
    | .connError => none
    | .response s body =>
      if s = 429 then none
      else if raiseForStatusFails s then none
      else some (propertyList body)

/-- Spec constant: metres per degree of arc on the mean earth sphere,
`π * 6371009 / 180` rounded; used to convert the configured buffer to degrees
for the bounding box and by the geodesic reference model. -/
def metersPerDegree : ℚ := 111195

/-- Least element of a nonempty list given as head and tail. -/
def minList (x : ℚ) (xs : List ℚ) : ℚ :=
  xs.foldl min x

/-- Greatest element of a nonempty list given as head and tail. -/
def maxList (x : ℚ) (xs : List ℚ) : ℚ :=
  xs.foldl max x

/-- The bbox CTE of enrichment.py lines 48-59: envelope of
`ST_Buffer(geom::geography, buf)`. The one-row SELECT always yields a row, so
the result is always `some`; the geodesic buffer envelope is approximated by
padding the coordinate extremes with the buffer converted to degrees. No claim
depends on the box values: they only parameterize the provider request. -/
def computeBbox (pts : List (ℚ × ℚ)) (buf : ℚ) : Option (ℚ × ℚ × ℚ × ℚ) :=
  match pts with
  | [] => some (0, 0, 0, 0)
  | p :: rest =>
    let dlt := buf / metersPerDegree
    some (minList p.1 (rest.map Prod.fst) - dlt,
          minList p.2 (rest.map Prod.snd) - dlt,
          maxList p.1 (rest.map Prod.fst) + dlt,
          maxList p.2 (rest.map Prod.snd) + dlt)

/-- `enrich_with_estated` (enrichment.py lines 204-206): the fallback is a
placeholder that performs no query and returns 0 unconditionally. -/
def enrich_with_estated (_route_id : ℕ) : ℕ :=
  0

/-- `enrich_route` (enrichment.py lines 26-77): load the route (count 0 when
missing or without geometry), compute the buffered bbox, query ATTOM, fall
back to Estated when the provider is unavailable, otherwise upsert and
associate the candidates. `buffer_meters` is the configured
`ROUTE_BUFFER_METERS` (default 100). -/
def enrich_route (now : ℤ) (route_id : ℕ) (apiKey : Option String)
    (http : HttpResult) (buffer_meters : ℚ) (db : DB) : Except Unit (DB × ℕ) :=
  match db.routes.find? (fun r => r.id == route_id) with
  | none => .ok (db, 0)
  | some route =>
    match route.geom with
    | none => .ok (db, 0)
    | some pts =>
      match computeBbox pts buffer_meters with
      | none => .ok (db, 0)
      | some bbox =>
        match query_attom_bbox apiKey http bbox with
        | none => .ok (db, enrich_with_estated route_id)
        | some attom_props => upsert_and_associate now route_id attom_props buffer_meters db

/-- `Property.get_rarity` (models.py lines 231-244): a missing price counts
as 0. -/
def get_rarity (price : Option ℚ) : String :=
  let p := price.getD 0
  if p ≥ 2000000 then "legendary"
  else if p ≥ 1000000 then "epic"
  else if p ≥ 500000 then "rare"
  else "common"

/-- Modelled from the spec: the precise minimum geodesic distance in metres
from a candidate point to the route path (spec section 4.4), squared. The
repository delegates this to PostGIS geography types, which the distance SQL
fails to use. For the near-equator configurations of the scenarios, geodesic
distance is degree distance scaled by `metersPerDegree` in a local tangent
plane, so the squared distance scales by `metersPerDegree ^ 2`. -/
def specDistSqMeters (p : ℚ × ℚ) (path : List (ℚ × ℚ)) : Option ℚ :=
  (lineDistSq p path).map (fun d => d * metersPerDegree ^ 2)

/-! ## Concrete fixtures used by witnesses and counterexamples -/

/-- A well-formed candidate one degree off the fixture route. -/
def candW : JVal :=
  .obj [("identifier", .obj [("attomId", .str "W")]),
        ("location", .obj [("latitude", .num 1), ("longitude", .num 1)])]

/-- The fixture route row: id 1, a two-vertex equatorial LineString. -/
def route1 : RouteRec :=
  { id := 1, geom := some [(0, 0), (2, 0)] }

/-- Initial session: one route along the equator, empty property cache. -/
def db0W : DB :=
  { routes := [route1]
    properties := []
    assocs := []
    nextPropId := 1 }

/-- Provider response carrying `candW`. -/
def httpW : HttpResult :=
  .response 200 [("property", .arr [candW])]

/-- The dict produced by parsing `candW` at time 0. -/
def propsW : Props :=
  { external_id := some "W", address := none, city := none, state := none
    zip := none, latitude := some 1, longitude := some 1, price := none
    bedrooms := none, bathrooms := none, sqft := none, lot_sqft := none
    year_built := none, property_type := some "SFR", listing_date := none
    photo_url := none, source := some "ATTOM", last_updated := 0 }

/-- Session state after the first enrichment run on `db0W`. -/
def db1W : DB :=
  { routes := [route1]
    properties := [propertyOfProps 1 propsW]
    assocs := [{ route_id := 1, property_id := 1, distance_meters := 1, discovered_at := 0 }]
    nextPropId := 2 }

/-- The dict produced by parsing `candW` at time 100. -/
def propsW100 : Props :=
  { propsW with last_updated := 100 }

/-- 27/20000 = 0.00135 degrees, given in normalized form so that structural
evaluation does not need rational normalization. -/
def qlat150 : ℚ :=
  ⟨27, 20000, by norm_num, by norm_num⟩

/-- 9/4000 = 0.00225 degrees, the route midpoint longitude, normalized form. -/
def qlon150 : ℚ :=
  ⟨9, 4000, by norm_num, by norm_num⟩

/-- 9/2000 = 0.0045 degrees, the route endpoint longitude, normalized form. -/
def qend150 : ℚ :=
  ⟨9, 2000, by norm_num, by norm_num⟩

/-- Scenario A/B route: three points on the equator forming a straight line of
0.0045 degrees of longitude, about 500 m. -/
def routeC1pts : List (ℚ × ℚ) :=
  [(0, 0), (qlon150, 0), (qend150, 0)]

/-- The scenario A/B route row. -/
def routeC1 : RouteRec :=
  { id := 1, geom := some routeC1pts }

/-- Session holding the scenario A/B route. -/
def dbC1 : DB :=
  { routes := [routeC1]
    properties := []
    assocs := []
    nextPropId := 1 }

/-- Scenario B candidate: abreast of the route midpoint at 27/20000 = 0.00135
degrees of latitude, i.e. about 150 m of geodesic distance. -/
def cand150 : JVal :=
  .obj [("identifier", .obj [("attomId", .str "P150")]),
        ("location", .obj [("latitude", .num qlat150), ("longitude", .num qlon150)])]

/-- The dict produced by parsing `cand150` at time 0. -/
def propsC150 : Props :=
  { external_id := some "P150", address := none, city := none, state := none
    zip := none, latitude := some qlat150, longitude := some qlon150
    price := none, bedrooms := none, bathrooms := none, sqft := none
    lot_sqft := none, year_built := none, property_type := some "SFR"
    listing_date := none, photo_url := none, source := some "ATTOM"
    last_updated := 0 }

/-- First valid fallback candidate of scenario C. -/
def candA : JVal :=
  .obj [("identifier", .obj [("attomId", .str "A")]),
        ("location", .obj [("latitude", .num 1), ("longitude", .num 1)])]

/-- Second valid fallback candidate of scenario C. -/
def candB : JVal :=
  .obj [("identifier", .obj [("attomId", .str "B")]),
        ("location", .obj [("latitude", .num (-1)), ("longitude", .num 1)])]

/-- The dict produced by parsing `candA` at time 0. -/
def propsA : Props :=
  { external_id := some "A", address := none, city := none, state := none
    zip := none, latitude := some 1, longitude := some 1, price := none
    bedrooms := none, bathrooms := none, sqft := none, lot_sqft := none
    year_built := none, property_type := some "SFR", listing_date := none
    photo_url := none, source := some "ATTOM", last_updated := 0 }

/-- The dict produced by parsing `candB` at time 0. -/
def propsB : Props :=
  { external_id := some "B", address := none, city := none, state := none
    zip := none, latitude := some (-1), longitude := some 1, price := none
    bedrooms := none, bathrooms := none, sqft := none, lot_sqft := none
    year_built := none, property_type := some "SFR", listing_date := none
    photo_url := none, source := some "ATTOM", last_updated := 0 }

/-- Session state after associating `candA` on `db0W`. -/
def dbA1 : DB :=
  { routes := [route1]
    properties := [propertyOfProps 1 propsA]
    assocs := [{ route_id := 1, property_id := 1, distance_meters := 1, discovered_at := 0 }]
    nextPropId := 2 }

/-- Session state after additionally associating `candB` on `dbA1`. -/
def dbB2 : DB :=
  { routes := [route1]
    properties := [propertyOfProps 1 propsA, propertyOfProps 2 propsB]
    assocs := [{ route_id := 1, property_id := 1, distance_meters := 1, discovered_at := 0 },
               { route_id := 1, property_id := 2, distance_meters := 1, discovered_at := 0 }]
    nextPropId := 3 }

/-- A record whose normalization yields no external id (`identifier` absent):
the loop skips it with `continue`. -/
def noIdRec : JVal :=
  .obj [("location", .obj [("latitude", .num 1), ("longitude", .num 1)])]

/-- The dict produced by parsing `noIdRec` at time 0: no external id. -/
def propsN : Props :=
  { external_id := none, address := none, city := none, state := none
    zip := none, latitude := some 1, longitude := some 1, price := none
    bedrooms := none, bathrooms := none, sqft := none, lot_sqft := none
    year_built := none, property_type := some "SFR", listing_date := none
    photo_url := none, source := some "ATTOM", last_updated := 0 }

/-- Fixture for the zero-coordinate claim: latitude exactly 0, longitude 7. -/
def rec10 : JVal :=
  .obj [("identifier", .obj [("attomId", .str "Z")]),
        ("location", .obj [("latitude", .num 0), ("longitude", .num 7)])]

/-- `propsW` as parsed at time 200000. -/
def propsW200 : Props :=
  { propsW with last_updated := 200000 }

/-- A stale cached property sharing the external id of `candW`. -/
def pOld : PropertyRec :=
  { id := 3, external_id := some "W", address := some "old st", city := none
    state := none, zip := none, latitude := some 5, longitude := some 5
    price := some 100, bedrooms := none, bathrooms := none, sqft := none
    lot_sqft := none, year_built := none, property_type := some "SFR"
    listing_date := none, photo_url := none, source := some "Estated"
    last_updated := 0 }

/-- Session holding only the stale cached property. -/
def dbC3 : DB :=
  { routes := [], properties := [pOld], assocs := [], nextPropId := 5 }

/-- An existing association row used by the update-frame witness. -/
def a0W : Assoc :=
  { route_id := 1, property_id := 1, distance_meters := 5, discovered_at := 11 }

/-! ## Helper lemmas -/

theorem exbind_ok {α β : Type} (a : α) (f : α → Except Unit β) :
    Bind.bind (Except.ok a) f = f a :=
  rfl

theorem exbind_err {α β : Type} (e : Unit) (f : α → Except Unit β) :
    Bind.bind (Except.error e : Except Unit α) f = Except.error e :=
  rfl

theorem exmap_ok {α β : Type} (g : α → β) (a : α) :
    (Except.ok a : Except Unit α).map g = Except.ok (g a) :=
  rfl

theorem exmap_err {α β : Type} (g : α → β) (e : Unit) :
    (Except.error e : Except Unit α).map g = Except.error e :=
  rfl

theorem expure {α : Type} (a : α) :
    (pure a : Except Unit α) = Except.ok a :=
  rfl

/-- The parsed dict depends on the wall clock only through its `last_updated`
entry: control flow and every other field are functions of the record alone. -/
theorem parse_time (now : ℤ) (d : JVal) :
    parse_attom_property now d
      = (parse_attom_property 0 d).map (fun p => { p with last_updated := now }) := by
  unfold parse_attom_property
  rcases pyGet d "identifier" with _ | identifierV
  · rfl
  simp only [exbind_ok]
  rcases pyGet d "address" with _ | addressV
  · rfl
  simp only [exbind_ok]
  rcases pyGet d "location" with _ | locationV
  · rfl
  simp only [exbind_ok]
  rcases pyGet d "sale" with _ | saleV
  · rfl
  simp only [exbind_ok]
  rcases pyGet (pyOr saleV (.obj [])) "amount" with _ | amountV
  · rfl
  simp only [exbind_ok]
  rcases pyGet d "building" with _ | buildingV
  · rfl
  simp only [exbind_ok]
  rcases pyGet (pyOr buildingV (.obj [])) "rooms" with _ | roomsV
  · rfl
  simp only [exbind_ok]
  rcases pyGet (pyOr buildingV (.obj [])) "size" with _ | sizeV
  · rfl
  simp only [exbind_ok]
  rcases pyGet d "vintage" with _ | vintageV
  · rfl
  simp only [exbind_ok]
  rcases pyGet (pyOr identifierV (.obj [])) "attomId" with _ | attomIdV
  · rfl
  simp only [exbind_ok]
  rcases pyGet (pyOr locationV (.obj [])) "latitude" with _ | latV
  · rfl
  simp only [exbind_ok]
  rcases normCoord latV with _ | lat
  · rfl
  simp only [exbind_ok]
  rcases pyGet (pyOr locationV (.obj [])) "longitude" with _ | lonV
  · rfl
  simp only [exbind_ok]
  rcases normCoord lonV with _ | lon
  · rfl
  simp only [exbind_ok]
  rcases pyGet (pyOr saleV (.obj [])) "saleTransDate" with _ | saleDateV
  · rfl
  simp only [exbind_ok]
  rcases pyGet (pyOr amountV (.obj [])) "saleamt" with _ | priceV
  · rfl
  simp only [exbind_ok]
  rcases pyGet (pyOr roomsV (.obj [])) "beds" with _ | bedsV
  · rfl
  simp only [exbind_ok]
  rcases pyGet (pyOr roomsV (.obj [])) "bathstotal" with _ | bathsV
  · rfl
  simp only [exbind_ok]
  rcases pyGet (pyOr sizeV (.obj [])) "livingsize" with _ | sqftV
  · rfl
  simp only [exbind_ok]
  rcases pyGet (pyOr addressV (.obj [])) "line1" with _ | line1V
  · rfl
  simp only [exbind_ok]
  rcases pyGet (pyOr addressV (.obj [])) "locality" with _ | cityV
  · rfl
  simp only [exbind_ok]
  rcases pyGet (pyOr addressV (.obj [])) "countrySubd" with _ | stateV
  · rfl
  simp only [exbind_ok]
  rcases pyGet (pyOr addressV (.obj [])) "postal1" with _ | zipV
  · rfl
  simp only [exbind_ok]
  cases htv : truthy (pyOr vintageV (JVal.obj []))
  · rfl
  · rcases pyGet (pyOr vintageV (.obj [])) "yearbuilt" with _ | yearV
    · rfl
    simp only [exbind_ok]
    rfl

/-- A successfully parsed dict carries the wall clock in `last_updated`. -/
theorem parse_lastUpdated (now : ℤ) (d : JVal) (p : Props)
    (h : parse_attom_property now d = .ok p) : p.last_updated = now := by
  rw [parse_time] at h
  rcases hq : parse_attom_property 0 d with e | q
  · rw [hq] at h
    simp only [exmap_err] at h
    exact Except.noConfusion h
  · rw [hq] at h
    simp only [exmap_ok] at h
    cases h
    rfl

/-- The property upsert never touches the `routes` table. -/
theorem upsertProperty_routes (now : ℤ) (props : Props) (db : DB) :
    (upsertProperty now props db).1.routes = db.routes := by
  unfold upsertProperty
  cases db.properties.find? (fun p => p.external_id == props.external_id) with
  | none => rfl
  | some p =>
    by_cases hst : p.last_updated ≤ now - propertyCacheSeconds
    · simp [hst]
    · simp [hst]

/-- The property upsert never touches the `route_properties` table. -/
theorem upsertProperty_assocs (now : ℤ) (props : Props) (db : DB) :
    (upsertProperty now props db).1.assocs = db.assocs := by
  unfold upsertProperty
  cases db.properties.find? (fun p => p.external_id == props.external_id) with
  | none => rfl
  | some p =>
    by_cases hst : p.last_updated ≤ now - propertyCacheSeconds
    · simp [hst]
    · simp [hst]

/-- The association loop never touches the `routes` table. -/
theorem upsertAux_ok_routes :
    ∀ (l : List JVal) (now : ℤ) (rid : ℕ) (buf : ℚ) (db : DB) (c : ℕ)
      (db2 : DB) (n : ℕ),
      upsertAux now rid buf l db c = .ok (db2, n) → db2.routes = db.routes := by
  intro l
  induction l with
  | nil =>
    intro now rid buf db c db2 n h
    simp only [upsertAux] at h
    cases h
    rfl
  | cons rec rest ih =>
    intro now rid buf db c db2 n h
    simp only [upsertAux] at h
    cases hp : parse_attom_property now rec with
    | error e =>
      rw [hp] at h
      exact Except.noConfusion h
    | ok props =>
      simp only [hp] at h
      cases ht : truthyOptStr props.external_id with
      | false =>
        simp only [ht, Bool.false_eq_true, if_false] at h
        exact ih now rid buf db c db2 n h
      | true =>
        simp only [ht, if_true] at h
        cases hr : (upsertProperty now props db).1.routes.find? (fun rt => rt.id == rid) with
        | none =>
          simp only [hr] at h
          rw [ih now rid buf (upsertProperty now props db).1 c db2 n h]
          exact upsertProperty_routes now props db
        | some route =>
          simp only [hr] at h
          by_cases hd :
              distSqOf route.geom props.longitude props.latitude > buf ^ 2
          · rw [if_pos hd] at h
            rw [ih now rid buf (upsertProperty now props db).1 c db2 n h]
            exact upsertProperty_routes now props db
          · rw [if_neg hd] at h
            rw [ih now rid buf _ (c + 1) db2 n h]
            exact upsertProperty_routes now props db


/-- Two passes over the same candidate list increment their counters
identically and fail identically, whatever the wall clock and whatever the
session states, provided both sessions hold the same `routes` table: the
per-candidate control flow depends only on the record, the route geometry and
the buffer. -/
theorem upsertAux_count_rel :
    ∀ (l : List JVal) (now now2 : ℤ) (rid : ℕ) (buf : ℚ) (db db2 : DB) (c c2 : ℕ),
      db.routes = db2.routes →
      (upsertAux now rid buf l db c = .error () ∧
        upsertAux now2 rid buf l db2 c2 = .error ()) ∨
      (∃ k dbo dbo2, upsertAux now rid buf l db c = .ok (dbo, c + k) ∧
        upsertAux now2 rid buf l db2 c2 = .ok (dbo2, c2 + k)) := by
  intro l
  induction l with
  | nil =>
    intro now now2 rid buf db db2 c c2 hroutes
    right
    exact ⟨0, db, db2, rfl, rfl⟩
  | cons rec rest ih =>
    intro now now2 rid buf db db2 c c2 hroutes
    have h1 : parse_attom_property now rec
        = (parse_attom_property 0 rec).map (fun p => { p with last_updated := now }) :=
      parse_time now rec
    have h2 : parse_attom_property now2 rec
        = (parse_attom_property 0 rec).map (fun p => { p with last_updated := now2 }) :=
      parse_time now2 rec
    cases hp : parse_attom_property 0 rec with
    | error e =>
      rw [hp, exmap_err] at h1 h2
      left
      constructor
      · simp only [upsertAux, h1]
      · simp only [upsertAux, h2]
    | ok p0 =>
      rw [hp, exmap_ok] at h1 h2
      simp only [upsertAux, h1, h2]
      cases ht : truthyOptStr p0.external_id with
      | false =>
        simp only [ht, Bool.false_eq_true, if_false]
        exact ih now now2 rid buf db db2 c c2 hroutes
      | true =>
        simp only [ht, if_true]
        have hroutes1 :
            (upsertProperty now { p0 with last_updated := now } db).1.routes
              = (upsertProperty now2 { p0 with last_updated := now2 } db2).1.routes := by
          rw [upsertProperty_routes, upsertProperty_routes, hroutes]
        have hfind :
            (upsertProperty now2 { p0 with last_updated := now2 } db2).1.routes.find?
                (fun rt => rt.id == rid)
              = (upsertProperty now { p0 with last_updated := now } db).1.routes.find?
                (fun rt => rt.id == rid) := by
          rw [hroutes1]
        cases hr : (upsertProperty now { p0 with last_updated := now } db).1.routes.find?
            (fun rt => rt.id == rid) with
        | none =>
          rw [hr] at hfind
          simp only [hr, hfind]
          exact ih now now2 rid buf _ _ c c2 hroutes1
        | some route =>
          rw [hr] at hfind
          simp only [hr, hfind]
          by_cases hd : distSqOf route.geom p0.longitude p0.latitude > buf ^ 2
          · rw [if_pos hd, if_pos hd]
            refine ih now now2 rid buf _ _ c c2 ?_
            rw [upsertProperty_routes, upsertProperty_routes, hroutes]
          · rw [if_neg hd, if_neg hd]
            have hstep := ih now now2 rid buf
              { (upsertProperty now { p0 with last_updated := now } db).1 with
                  assocs := upsertAssoc now rid
                    (upsertProperty now { p0 with last_updated := now } db).2
                    (distSqOf route.geom p0.longitude p0.latitude)
                    (upsertProperty now { p0 with last_updated := now } db).1.assocs }
              { (upsertProperty now2 { p0 with last_updated := now2 } db2).1 with
                  assocs := upsertAssoc now2 rid
                    (upsertProperty now2 { p0 with last_updated := now2 } db2).2
                    (distSqOf route.geom p0.longitude p0.latitude)
                    (upsertProperty now2 { p0 with last_updated := now2 } db2).1.assocs }
              (c + 1) (c2 + 1)
              (by rw [upsertProperty_routes, upsertProperty_routes, hroutes])
            rcases hstep with ⟨ha, hb⟩ | ⟨k, dbo, dbo2, ha, hb⟩
            · exact Or.inl ⟨ha, hb⟩
            · refine Or.inr ⟨k + 1, dbo, dbo2, ?_, ?_⟩
              · rw [show c + (k + 1) = c + 1 + k by omega]
                exact ha
              · rw [show c2 + (k + 1) = c2 + 1 + k by omega]
                exact hb

/-- Overwriting the distance of the first matching association leaves the
sequence of composite keys unchanged. -/
theorem setDistanceFirst_keys (rid pid : ℕ) (d : ℚ) :
    ∀ l : List Assoc, (setDistanceFirst rid pid d l).map assocKey = l.map assocKey := by
  intro l
  induction l with
  | nil => rfl
  | cons a rest ih =>
    by_cases h : (a.route_id == rid && a.property_id == pid) = true
    · simp [setDistanceFirst, h, assocKey]
    · simp [setDistanceFirst, h, ih]

/-- The association upsert preserves the at-most-one-row-per-key invariant. -/
theorem upsertAssoc_nodup (now : ℤ) (rid pid : ℕ) (d : ℚ) (l : List Assoc)
    (h : keysNodup l) : keysNodup (upsertAssoc now rid pid d l) := by
  unfold upsertAssoc
  cases hf : l.find? (fun a => a.route_id == rid && a.property_id == pid) with
  | some a =>
    unfold keysNodup
    rw [setDistanceFirst_keys]
    exact h
  | none =>
    unfold keysNodup
    rw [List.map_append]
    have hnotin : (rid, pid) ∉ l.map assocKey := by
      intro hmem
      rcases List.mem_map.mp hmem with ⟨a, ha, hk⟩
      have hnone := List.find?_eq_none.mp hf a ha
      apply hnone
      have h1 : a.route_id = rid := congrArg Prod.fst hk
      have h2 : a.property_id = pid := congrArg Prod.snd hk
      simp [h1, h2]
    simp [List.nodup_append, hnotin, assocKey]
    exact h

/-- Overwriting the distance of the first matching association preserves each
row's key, discovery timestamp and position. -/
theorem setDistanceFirst_frame (rid pid : ℕ) (d : ℚ) :
    ∀ l : List Assoc, ∀ a ∈ l, ∃ b ∈ setDistanceFirst rid pid d l,
      b.route_id = a.route_id ∧ b.property_id = a.property_id ∧
        b.discovered_at = a.discovered_at := by
  intro l
  induction l with
  | nil => intro a ha; cases ha
  | cons x rest ih =>
    intro a ha
    by_cases h : (x.route_id == rid && x.property_id == pid) = true
    · rcases List.mem_cons.mp ha with rfl | hmem
      · refine ⟨{ a with distance_meters := d }, ?_, rfl, rfl, rfl⟩
        simp [setDistanceFirst, h]
      · refine ⟨a, ?_, rfl, rfl, rfl⟩
        simp [setDistanceFirst, h, hmem]
    · rcases List.mem_cons.mp ha with rfl | hmem
      · refine ⟨a, ?_, rfl, rfl, rfl⟩
        simp [setDistanceFirst, h]
      · rcases ih a hmem with ⟨b, hb, h1, h2, h3⟩
        refine ⟨b, ?_, h1, h2, h3⟩
        simp [setDistanceFirst, h]
        exact Or.inr hb

/-- Every association row survives an association upsert with its key and its
discovery timestamp intact. -/
theorem upsertAssoc_frame (now : ℤ) (rid pid : ℕ) (d : ℚ) (l : List Assoc) :
    ∀ a ∈ l, ∃ b ∈ upsertAssoc now rid pid d l,
      b.route_id = a.route_id ∧ b.property_id = a.property_id ∧
        b.discovered_at = a.discovered_at := by
  intro a ha
  unfold upsertAssoc
  cases hf : l.find? (fun x => x.route_id == rid && x.property_id == pid) with
  | some x => exact setDistanceFirst_frame rid pid d l a ha
  | none => exact ⟨a, List.mem_append_left _ ha, rfl, rfl, rfl⟩

/-- The association loop preserves the at-most-one-row-per-key invariant. -/
theorem upsertAux_nodup :
    ∀ (l : List JVal) (now : ℤ) (rid : ℕ) (buf : ℚ) (db : DB) (c : ℕ)
      (db2 : DB) (n : ℕ),
      keysNodup db.assocs → upsertAux now rid buf l db c = .ok (db2, n) →
      keysNodup db2.assocs := by
  intro l
  induction l with
  | nil =>
    intro now rid buf db c db2 n hnd h
    simp only [upsertAux] at h
    cases h
    exact hnd
  | cons rec rest ih =>
    intro now rid buf db c db2 n hnd h
    simp only [upsertAux] at h
    cases hp : parse_attom_property now rec with
    | error e =>
      rw [hp] at h
      exact Except.noConfusion h
    | ok props =>
      simp only [hp] at h
      cases ht : truthyOptStr props.external_id with
      | false =>
        simp only [ht, Bool.false_eq_true, if_false] at h
        exact ih now rid buf db c db2 n hnd h
      | true =>
        simp only [ht, if_true] at h
        have hnd1 : keysNodup (upsertProperty now props db).1.assocs := by
          rw [upsertProperty_assocs]
          exact hnd
        cases hr : (upsertProperty now props db).1.routes.find? (fun rt => rt.id == rid) with
        | none =>
          simp only [hr] at h
          exact ih now rid buf _ c db2 n hnd1 h
        | some route =>
          simp only [hr] at h
          by_cases hd : distSqOf route.geom props.longitude props.latitude > buf ^ 2
          · rw [if_pos hd] at h
            exact ih now rid buf _ c db2 n hnd1 h
          · rw [if_neg hd] at h
            refine ih now rid buf _ (c + 1) db2 n ?_ h
            exact upsertAssoc_nodup now rid _ _ _ hnd1

/-- Every association row present before the loop survives it with its key and
its discovery timestamp intact. -/
theorem upsertAux_frame :
    ∀ (l : List JVal) (now : ℤ) (rid : ℕ) (buf : ℚ) (db : DB) (c : ℕ)
      (db2 : DB) (n : ℕ),
      upsertAux now rid buf l db c = .ok (db2, n) →
      ∀ a ∈ db.assocs, ∃ b ∈ db2.assocs,
        b.route_id = a.route_id ∧ b.property_id = a.property_id ∧
          b.discovered_at = a.discovered_at := by
  intro l
  induction l with
  | nil =>
    intro now rid buf db c db2 n h a ha
    simp only [upsertAux] at h
    cases h
    exact ⟨a, ha, rfl, rfl, rfl⟩
  | cons rec rest ih =>
    intro now rid buf db c db2 n h a ha
    simp only [upsertAux] at h
    cases hp : parse_attom_property now rec with
    | error e =>
      rw [hp] at h
      exact Except.noConfusion h
    | ok props =>
      simp only [hp] at h
      cases ht : truthyOptStr props.external_id with
      | false =>
        simp only [ht, Bool.false_eq_true, if_false] at h
        exact ih now rid buf db c db2 n h a ha
      | true =>
        simp only [ht, if_true] at h
        have ha1 : a ∈ (upsertProperty now props db).1.assocs := by
          rw [upsertProperty_assocs]
          exact ha
        cases hr : (upsertProperty now props db).1.routes.find? (fun rt => rt.id == rid) with
        | none =>
          simp only [hr] at h
          exact ih now rid buf _ c db2 n h a ha1
        | some route =>
          simp only [hr] at h
          by_cases hd : distSqOf route.geom props.longitude props.latitude > buf ^ 2
          · rw [if_pos hd] at h
            exact ih now rid buf _ c db2 n h a ha1
          · rw [if_neg hd] at h
            rcases upsertAssoc_frame now rid (upsertProperty now props db).2
                (distSqOf route.geom props.longitude props.latitude)
                (upsertProperty now props db).1.assocs a ha1 with ⟨b, hb, e1, e2, e3⟩
            rcases ih now rid buf _ (c + 1) db2 n h b hb with ⟨b2, hb2, f1, f2, f3⟩
            exact ⟨b2, hb2, f1.trans e1, f2.trans e2, f3.trans e3⟩

/-- Unfolding equation: the loop on an empty list returns the counter. -/
theorem upsertAux_nil (now : ℤ) (rid : ℕ) (buf : ℚ) (db : DB) (c : ℕ) :
    upsertAux now rid buf [] db c = .ok (db, c) :=
  rfl

/-- Unfolding equation: a record without external id is skipped. -/
theorem upsertAux_cons_skip (now : ℤ) (rid : ℕ) (buf : ℚ) (rec : JVal)
    (rest : List JVal) (db : DB) (c : ℕ) (props : Props)
    (hp : parse_attom_property now rec = .ok props)
    (ht : truthyOptStr props.external_id = false) :
    upsertAux now rid buf (rec :: rest) db c = upsertAux now rid buf rest db c := by
  simp only [upsertAux, hp, ht, Bool.false_eq_true, if_false]

/-- Unfolding equation: an in-buffer candidate is upserted and associated and
the counter advances. -/
theorem upsertAux_cons_assoc (now : ℤ) (rid : ℕ) (buf : ℚ) (rec : JVal)
    (rest : List JVal) (db : DB) (c : ℕ) (props : Props) (route : RouteRec)
    (hp : parse_attom_property now rec = .ok props)
    (ht : truthyOptStr props.external_id = true)
    (hr : (upsertProperty now props db).1.routes.find? (fun rt => rt.id == rid)
      = some route)
    (hd : ¬ distSqOf route.geom props.longitude props.latitude > buf ^ 2) :
    upsertAux now rid buf (rec :: rest) db c
      = upsertAux now rid buf rest
          { (upsertProperty now props db).1 with
              assocs := upsertAssoc now rid (upsertProperty now props db).2
                (distSqOf route.geom props.longitude props.latitude)
                (upsertProperty now props db).1.assocs }
          (c + 1) := by
  simp only [upsertAux, hp, ht, if_true, hr, if_neg hd]

/-- C9: the rarity label read off a property is "legendary" iff price ≥
2,000,000, "epic" iff 1,000,000 ≤ price < 2,000,000, "rare" iff 500,000 ≤
price < 1,000,000 and "common" iff price < 500,000, all thresholds inclusive
at the lower bound; in particular 1,000,000 is "epic" and 999,999 is "rare". -/
theorem c9_rarity_tiers :
    ∀ p : ℚ,
      (get_rarity (some p) = "legendary" ↔ 2000000 ≤ p) ∧
      (get_rarity (some p) = "epic" ↔ 1000000 ≤ p ∧ p < 2000000) ∧
      (get_rarity (some p) = "rare" ↔ 500000 ≤ p ∧ p < 1000000) ∧
      (get_rarity (some p) = "common" ↔ p < 500000) := by
  intro p
  unfold get_rarity
  simp only [Option.getD_some, ge_iff_le]
  split_ifs with h1 h2 h3 <;>
    refine ⟨?_, ?_, ?_, ?_⟩ <;>
    simp_all <;>
    first
    | linarith
    | (intro h4; linarith)

/-- C10: the normalization of lines 92-94 turns a latitude or longitude equal
to exactly 0 into `None`: a numeric coordinate `q` survives exactly when it is
nonzero, and a record located at latitude 0 parses to a candidate with no
latitude while its nonzero longitude is kept. -/
theorem c10_zero_coord_dropped :
    (∀ q : ℚ, normCoord (.num q) = .ok (if q = 0 then none else some q)) ∧
    (parse_attom_property 0 rec10).map Props.latitude = .ok none ∧
    (parse_attom_property 0 rec10).map Props.longitude = .ok (some 7) := by
  refine ⟨?_, by decide, by decide⟩
  intro q
  by_cases h : q = 0
  · subst h
    rfl
  · simp [normCoord, pyOr, truthy, pyFloat, h, exbind_ok]

/-- C7: with an API key configured, a request timeout, an HTTP 429 rate-limit
response and any 5xx server error all make the provider client return the
distinguished unavailable result `none` instead of raising. -/
theorem c7_provider_unavailable (key : String) (body : List (String × JVal))
    (bbox : ℚ × ℚ × ℚ × ℚ) (s : ℕ) (h5 : 500 ≤ s) (h6 : s < 600) :
    query_attom_bbox (some key) .timeout bbox = none ∧
    query_attom_bbox (some key) (.response 429 body) bbox = none ∧
    query_attom_bbox (some key) (.response s body) bbox = none := by
  refine ⟨rfl, rfl, ?_⟩
  simp only [query_attom_bbox]
  have hne : s ≠ 429 := by omega
  rw [if_neg hne]
  have hrf : raiseForStatusFails s = true := by
    unfold raiseForStatusFails
    simp only [Bool.and_eq_true, decide_eq_true_eq]
    omega
  rw [if_pos hrf]

/-- Witness for C7 at the concrete server error 503. -/
theorem c7_provider_unavailable_witness :
    500 ≤ 503 ∧ 503 < 600 ∧
      (query_attom_bbox (some "k") .timeout (0, 0, 0, 0) = none ∧
       query_attom_bbox (some "k") (.response 429 []) (0, 0, 0, 0) = none ∧
       query_attom_bbox (some "k") (.response 503 []) (0, 0, 0, 0) = none) :=
  ⟨by decide, by decide,
    c7_provider_unavailable "k" [] (0, 0, 0, 0) 503 (by decide) (by decide)⟩

/-- C8: when the route id is absent from the routes table, or the route row
has a NULL geometry, `enrich_route` returns count 0 with no error and leaves
the whole session state untouched. -/
theorem c8_missing_route_noop (now : ℤ) (rid : ℕ) (key : Option String)
    (http : HttpResult) (buf : ℚ) (db : DB)
    (h : db.routes.find? (fun r => r.id == rid) = none ∨
      ∃ route, db.routes.find? (fun r => r.id == rid) = some route ∧ route.geom = none) :
    enrich_route now rid key http buf db = .ok (db, 0) := by
  unfold enrich_route
  rcases h with h | ⟨route, hfind, hgeom⟩
  · rw [h]
  · simp only [hfind, hgeom]

/-- Witness for C8 on an empty session. -/
theorem c8_missing_route_noop_witness :
    enrich_route 0 7 none HttpResult.timeout 100
        { routes := [], properties := [], assocs := [], nextPropId := 1 }
      = .ok ({ routes := [], properties := [], assocs := [], nextPropId := 1 }, 0) :=
  c8_missing_route_noop 0 7 none HttpResult.timeout 100 _ (Or.inl rfl)

/-- C1: the distance SQL casts the geography to `geometry`, so the computed
minimum distance is planar and in degrees, yet it is compared against the
100-metre buffer. On the straight 500 m equatorial route, the scenario B
candidate 0.00135 degrees (about 150 m of geodesic distance, squared value
above 100²) abreast of the path is nevertheless associated, with count 1. -/
theorem c1_degree_meter_mismatch :
    (upsert_and_associate 0 1 [cand150] 100 dbC1).map Prod.snd = .ok 1 ∧
    (specDistSqMeters (qlon150, qlat150) routeC1pts).getD 0 > 100 ^ 2 := by
  constructor
  · have hp : parse_attom_property 0 cand150 = .ok propsC150 := by decide
    have hd : ¬ distSqOf routeC1.geom propsC150.longitude propsC150.latitude
        > (100 : ℚ) ^ 2 := by
      norm_num [distSqOf, routeC1, routeC1pts, propsC150, lineDistSq, segDistSq,
        ptDistSq, min_def, qlat150, qlon150, qend150, Rat.mk'_eq_divInt,
        Rat.divInt_eq_div]
    rw [show upsert_and_associate 0 1 [cand150] 100 dbC1
        = upsertAux 0 1 100 [cand150] dbC1 0 from rfl]
    rw [upsertAux_cons_assoc 0 1 100 cand150 [] dbC1 0 propsC150 routeC1 hp rfl rfl hd]
    rw [upsertAux_nil]
    rfl
  · norm_num [specDistSqMeters, lineDistSq, segDistSq, ptDistSq, metersPerDegree,
      routeC1pts, min_def, qlat150, qlon150, qend150, Rat.mk'_eq_divInt,
      Rat.divInt_eq_div]

/-- C4: the Estated fallback is a placeholder returning 0 unconditionally:
with two valid in-buffer candidates that the normal pipeline would associate
(count 2), a run whose primary provider times out still returns 0 and leaves
the session untouched. -/
theorem c4_fallback_placeholder :
    (upsert_and_associate 0 1 [candA, candB] 100 db0W).map Prod.snd = .ok 2 ∧
    enrich_route 0 1 (some "k") HttpResult.timeout 100 db0W = .ok (db0W, 0) ∧
    ∀ rid : ℕ, enrich_with_estated rid = 0 := by
  refine ⟨?_, by decide, fun rid => rfl⟩
  have hpA : parse_attom_property 0 candA = .ok propsA := by decide
  have hpB : parse_attom_property 0 candB = .ok propsB := by decide
  have hdA : ¬ distSqOf route1.geom propsA.longitude propsA.latitude
      > (100 : ℚ) ^ 2 := by
    norm_num [distSqOf, route1, propsA, lineDistSq, segDistSq, ptDistSq, min_def]
  have hdB : ¬ distSqOf route1.geom propsB.longitude propsB.latitude
      > (100 : ℚ) ^ 2 := by
    norm_num [distSqOf, route1, propsB, lineDistSq, segDistSq, ptDistSq, min_def]
  have hdAeq : distSqOf route1.geom propsA.longitude propsA.latitude = 1 := by
    norm_num [distSqOf, route1, propsA, lineDistSq, segDistSq, ptDistSq, min_def]
  have s1 : upsertAux 0 1 100 [candA, candB] db0W 0
      = upsertAux 0 1 100 [candB] dbA1 1 := by
    rw [upsertAux_cons_assoc 0 1 100 candA [candB] db0W 0 propsA route1 hpA rfl rfl hdA]
    rw [hdAeq]
    rfl
  have s2 : upsertAux 0 1 100 [candB] dbA1 1 = .ok (dbB2, 2) := by
    have hdBeq : distSqOf route1.geom propsB.longitude propsB.latitude = 1 := by
      norm_num [distSqOf, route1, propsB, lineDistSq, segDistSq, ptDistSq, min_def]
    rw [upsertAux_cons_assoc 0 1 100 candB [] dbA1 1 propsB route1 hpB rfl rfl hdB]
    rw [hdBeq, upsertAux_nil]
    rfl
  rw [show upsert_and_associate 0 1 [candA, candB] 100 db0W
      = upsertAux 0 1 100 [candA, candB] db0W 0 from rfl]
  rw [s1, s2]
  rfl

/-- C6 counterexample: a malformed record (here a bare string, whose `.get`
raises) aborts the whole batch with an escaping exception instead of being
skipped: the claim would require the remaining valid record to yield count 1. -/
theorem c6_batch_aborts_on_malformed :
    upsert_and_associate 0 1 [JVal.str "oops", candA] 100 db0W = .error () := by
  decide

/-- C6 amended: only a record whose normalization produces a missing or empty
external id is skipped (without any skip counter) while the rest of the batch
continues: one valid record plus one id-less record yield count 1. -/
theorem c6_missing_id_skipped :
    (upsert_and_associate 0 1 [candA, noIdRec] 100 db0W).map Prod.snd = .ok 1 := by
  have hpA : parse_attom_property 0 candA = .ok propsA := by decide
  have hpN : parse_attom_property 0 noIdRec = .ok propsN := by decide
  have hdA : ¬ distSqOf route1.geom propsA.longitude propsA.latitude
      > (100 : ℚ) ^ 2 := by
    norm_num [distSqOf, route1, propsA, lineDistSq, segDistSq, ptDistSq, min_def]
  have hdAeq : distSqOf route1.geom propsA.longitude propsA.latitude = 1 := by
    norm_num [distSqOf, route1, propsA, lineDistSq, segDistSq, ptDistSq, min_def]
  have s1 : upsertAux 0 1 100 [candA, noIdRec] db0W 0
      = upsertAux 0 1 100 [noIdRec] dbA1 1 := by
    rw [upsertAux_cons_assoc 0 1 100 candA [noIdRec] db0W 0 propsA route1 hpA rfl rfl hdA]
    rw [hdAeq]
    rfl
  rw [show upsert_and_associate 0 1 [candA, noIdRec] 100 db0W
      = upsertAux 0 1 100 [candA, noIdRec] db0W 0 from rfl]
  rw [s1, upsertAux_cons_skip 0 1 100 noIdRec [] dbA1 1 propsN hpN rfl, upsertAux_nil]
  rfl

/-- The row found by the external-id lookup is the row the overwrite loop
mutates in place. -/
theorem overwriteFirstProp_mem :
    ∀ (l : List PropertyRec) (props : Props) (p : PropertyRec),
      l.find? (fun q => q.external_id == props.external_id) = some p →
      overwriteFrom p props ∈ overwriteFirstProp props l := by
  intro l props p
  induction l with
  | nil =>
    intro h
    exact absurd h (by simp)
  | cons x rest ih =>
    intro h
    rw [List.find?_cons] at h
    cases hx : (x.external_id == props.external_id) with
    | true =>
      simp only [hx] at h
      have hxp : x = p := Option.some.inj h
      subst hxp
      simp [overwriteFirstProp, hx]
    | false =>
      simp only [hx] at h
      simp only [overwriteFirstProp, hx, Bool.false_eq_true, if_false]
      exact List.mem_cons_of_mem x (ih h)

/-- C3: upserting a parsed candidate against a cached row with the same
external id overwrites every provider-sourced field and refreshes
last-updated exactly when the row's age reaches the 24-hour TTL
(`last_updated ≤ now - 24h`, inclusive), and leaves the whole session
untouched when the row is younger. -/
theorem c3_cache_ttl (now : ℤ) (db : DB) (rec0 : JVal) (props : Props)
    (p : PropertyRec)
    (hparse : parse_attom_property now rec0 = .ok props)
    (hfind : db.properties.find? (fun q => q.external_id == props.external_id)
      = some p) :
    (p.last_updated ≤ now - propertyCacheSeconds →
      ∃ r ∈ (upsertProperty now props db).1.properties,
        r.id = p.id ∧ r.external_id = props.external_id ∧
        r.address = props.address ∧ r.city = props.city ∧
        r.state = props.state ∧ r.zip = props.zip ∧
        r.latitude = props.latitude ∧ r.longitude = props.longitude ∧
        r.price = props.price ∧ r.bedrooms = props.bedrooms ∧
        r.bathrooms = props.bathrooms ∧ r.sqft = props.sqft ∧
        r.lot_sqft = props.lot_sqft ∧ r.year_built = props.year_built ∧
        r.property_type = props.property_type ∧
        r.listing_date = props.listing_date ∧ r.photo_url = props.photo_url ∧
        r.source = props.source ∧ r.last_updated = now) ∧
    (now - propertyCacheSeconds < p.last_updated →
      upsertProperty now props db = (db, p.id)) := by
  constructor
  · intro hstale
    refine ⟨overwriteFrom p props, ?_, rfl, rfl, rfl, rfl, rfl, rfl, rfl, rfl,
      rfl, rfl, rfl, rfl, rfl, rfl, rfl, rfl, rfl, rfl,
      parse_lastUpdated now rec0 props hparse⟩
    simp only [upsertProperty, hfind]
    rw [if_pos hstale]
    exact overwriteFirstProp_mem db.properties props p hfind
  · intro hfresh
    simp only [upsertProperty, hfind]
    rw [if_neg (not_le.mpr hfresh)]

/-- Witness for C3: the day-old cached row is overwritten by the candidate
parsed at time 200000. -/
theorem c3_cache_ttl_witness :
    ∃ r ∈ (upsertProperty 200000 propsW200 dbC3).1.properties,
      r.id = pOld.id ∧ r.external_id = propsW200.external_id ∧
      r.address = propsW200.address ∧ r.city = propsW200.city ∧
      r.state = propsW200.state ∧ r.zip = propsW200.zip ∧
      r.latitude = propsW200.latitude ∧ r.longitude = propsW200.longitude ∧
      r.price = propsW200.price ∧ r.bedrooms = propsW200.bedrooms ∧
      r.bathrooms = propsW200.bathrooms ∧ r.sqft = propsW200.sqft ∧
      r.lot_sqft = propsW200.lot_sqft ∧ r.year_built = propsW200.year_built ∧
      r.property_type = propsW200.property_type ∧
      r.listing_date = propsW200.listing_date ∧ r.photo_url = propsW200.photo_url ∧
      r.source = propsW200.source ∧ r.last_updated = 200000 :=
  (c3_cache_ttl 200000 dbC3 candW propsW200 pOld (by decide) (by decide)).1 (by decide)

/-- C5: when the association row already exists, re-association rewrites the
row list pointwise: every row keeps its route id, property id and
discovered_at, and only the matched row's distance_meters may change (to the
newly computed distance). In particular no row is inserted or deleted. -/
theorem c5_assoc_update_frame (now : ℤ) (rid pid : ℕ) (d : ℚ)
    (assocs : List Assoc) (a0 : Assoc)
    (hfind : assocs.find? (fun a => a.route_id == rid && a.property_id == pid)
      = some a0) :
    List.Forall₂ (fun a b =>
      b.route_id = a.route_id ∧ b.property_id = a.property_id ∧
      b.discovered_at = a.discovered_at ∧
      (b.distance_meters = a.distance_meters ∨ b.distance_meters = d))
      assocs (upsertAssoc now rid pid d assocs) := by
  unfold upsertAssoc
  rw [hfind]
  clear hfind
  induction assocs with
  | nil => exact List.Forall₂.nil
  | cons x rest ih =>
    by_cases hx : (x.route_id == rid && x.property_id == pid) = true
    · simp only [setDistanceFirst, hx, if_true]
      refine List.Forall₂.cons ⟨rfl, rfl, rfl, Or.inr rfl⟩ ?_
      exact List.forall₂_same.mpr (fun b _ => ⟨rfl, rfl, rfl, Or.inl rfl⟩)
    · simp only [setDistanceFirst, hx, if_false]
      exact List.Forall₂.cons ⟨rfl, rfl, rfl, Or.inl rfl⟩ ih

/-- Witness for C5 on a one-row association table. -/
theorem c5_assoc_update_frame_witness :
    List.Forall₂ (fun a b =>
      b.route_id = a.route_id ∧ b.property_id = a.property_id ∧
      b.discovered_at = a.discovered_at ∧
      (b.distance_meters = a.distance_meters ∨ b.distance_meters = 3))
      [a0W] (upsertAssoc 99 1 1 3 [a0W]) :=
  c5_assoc_update_frame 99 1 1 3 [a0W] a0W (by decide)

/-- C2: re-running `enrich_route` with the same provider response on the state
a first successful run produced yields the same count again, keeps the
at-most-one-association-per-(route, property) invariant, and every existing
association survives the second run with its key and its `discovered_at`
unchanged (only `distance_meters` is rewritten). -/
theorem c2_enrich_idempotent (now1 now2 : ℤ) (rid : ℕ) (key : Option String)
    (http : HttpResult) (buf : ℚ) (db db1 : DB) (c1 : ℕ)
    (hnodup : keysNodup db.assocs)
    (h1 : enrich_route now1 rid key http buf db = .ok (db1, c1)) :
    keysNodup db1.assocs ∧
    ∃ db2, enrich_route now2 rid key http buf db1 = .ok (db2, c1) ∧
      keysNodup db2.assocs ∧
      ∀ a ∈ db1.assocs, ∃ b ∈ db2.assocs,
        b.route_id = a.route_id ∧ b.property_id = a.property_id ∧
          b.discovered_at = a.discovered_at := by
  unfold enrich_route at h1 ⊢
  cases hfr : db.routes.find? (fun r => r.id == rid) with
  | none =>
    simp only [hfr, Except.ok.injEq, Prod.mk.injEq] at h1
    obtain ⟨rfl, rfl⟩ := h1
    simp only [hfr]
    exact ⟨hnodup, db, rfl, hnodup, fun a ha => ⟨a, ha, rfl, rfl, rfl⟩⟩
  | some route =>
    simp only [hfr] at h1
    cases hg : route.geom with
    | none =>
      simp only [hg, Except.ok.injEq, Prod.mk.injEq] at h1
      obtain ⟨rfl, rfl⟩ := h1
      simp only [hfr, hg]
      exact ⟨hnodup, db, rfl, hnodup, fun a ha => ⟨a, ha, rfl, rfl, rfl⟩⟩
    | some pts =>
      simp only [hg] at h1
      cases hb : computeBbox pts buf with
      | none =>
        simp only [hb, Except.ok.injEq, Prod.mk.injEq] at h1
        obtain ⟨rfl, rfl⟩ := h1
        simp only [hfr, hg, hb]
        exact ⟨hnodup, db, rfl, hnodup, fun a ha => ⟨a, ha, rfl, rfl, rfl⟩⟩
      | some bbox =>
        simp only [hb] at h1
        cases hq : query_attom_bbox key http bbox with
        | none =>
          simp only [hq, Except.ok.injEq, Prod.mk.injEq] at h1
          obtain ⟨rfl, rfl⟩ := h1
          simp only [hfr, hg, hb, hq]
          exact ⟨hnodup, db, rfl, hnodup, fun a ha => ⟨a, ha, rfl, rfl, rfl⟩⟩
        | some attom_props =>
          simp only [hq, upsert_and_associate] at h1
          have hroutes1 : db1.routes = db.routes :=
            upsertAux_ok_routes attom_props now1 rid buf db 0 db1 c1 h1
          have hnd1 : keysNodup db1.assocs :=
            upsertAux_nodup attom_props now1 rid buf db 0 db1 c1 hnodup h1
          have hfr2 : db1.routes.find? (fun r => r.id == rid) = some route := by
            rw [hroutes1]
            exact hfr
          simp only [hfr2, hg, hb, hq, upsert_and_associate]
          refine ⟨hnd1, ?_⟩
          rcases upsertAux_count_rel attom_props now1 now2 rid buf db db1 0 0
              hroutes1.symm with ⟨ha, hb2⟩ | ⟨k, dbo, dbo2, ha, hb2⟩
          · rw [h1] at ha
            exact Except.noConfusion ha
          · rw [h1] at ha
            simp only [Except.ok.injEq, Prod.mk.injEq] at ha
            obtain ⟨rfl, hc⟩ := ha
            refine ⟨dbo2, ?_, ?_, ?_⟩
            · rw [hc]
              exact hb2
            · exact upsertAux_nodup attom_props now2 rid buf db1 0 dbo2 (0 + k) hnd1 hb2
            · intro a ha2
              exact upsertAux_frame attom_props now2 rid buf db1 0 dbo2 (0 + k) hb2 a ha2

/-- Witness for C2: enriching the fixture route twice with the same provider
response, at times 0 and 100. -/
theorem c2_enrich_idempotent_witness :
    keysNodup db1W.assocs ∧
    ∃ db2, enrich_route 100 1 (some "k") httpW 100 db1W = .ok (db2, 1) ∧
      keysNodup db2.assocs ∧
      ∀ a ∈ db1W.assocs, ∃ b ∈ db2.assocs,
        b.route_id = a.route_id ∧ b.property_id = a.property_id ∧
          b.discovered_at = a.discovered_at := by
  refine c2_enrich_idempotent 0 100 1 (some "k") httpW 100 db0W db1W 1 (by decide) ?_
  rw [show enrich_route 0 1 (some "k") httpW 100 db0W
      = upsertAux 0 1 100 [candW] db0W 0 from rfl]
  have hpW : parse_attom_property 0 candW = .ok propsW := by decide
  have hdW : ¬ distSqOf route1.geom propsW.longitude propsW.latitude
      > (100 : ℚ) ^ 2 := by
    norm_num [distSqOf, route1, propsW, lineDistSq, segDistSq, ptDistSq, min_def]
  have hdWeq : distSqOf route1.geom propsW.longitude propsW.latitude = 1 := by
    norm_num [distSqOf, route1, propsW, lineDistSq, segDistSq, ptDistSq, min_def]
  rw [upsertAux_cons_assoc 0 1 100 candW [] db0W 0 propsW route1 hpW rfl rfl hdW]
  rw [hdWeq, upsertAux_nil]
  rfl
